import Mathlib

/-!
Shallow embedding of the home-assistant repository's tool-invocation core:
the device variants (`Light`, `Alarm`, `Thermostat`), the `IoTController`
with its tool catalog and dispatch (`mcp_iot/server.py`), and the
tool-use orchestration loops of `server/llm/claude_llm.py` and
`server/llm/openai_llm.py`.

Python runtime conventions are made explicit:
* dynamic values are the inductive `Value` (None, bool, int, float, str,
  list); Python floats are modelled as rationals (all operations used by
  the code - comparison, clamping via `max`/`min` - are exact);
* an operation that can raise returns `Except PyError _`;
* `dict.get(k)` returns `Value.none` when the key is absent, mirroring
  Python's `None` default;
* `float(x)` on a numeric-literal string is not modelled (no theorem
  below depends on string inputs to `float`); on a list it raises
  `TypeError`, which is modelled exactly.
-/

namespace HomeAi

/-- Python exception kinds raised by the modelled code paths:
`TypeError` (bad kwargs binding, unhashable key, unsupported comparison),
`ValueError` (`float` of a non-numeric string), and pydantic's
`ValidationError` (non-`str` value for `IoTCommand.action`). -/
inductive PyError where
  | typeError
  | valueError
  | validationError
deriving Repr, DecidableEq

/-- A Python value as it occurs in tool-call argument maps. -/
inductive Value where
  | none
  | bool (b : Bool)
  | int (n : Int)
  | float (q : ℚ)
  | str (s : String)
  | list (l : List Value)
deriving Repr

/-- Numeric view of a value: Python treats `bool` as the ints 0/1 and
unifies `int`/`float` under numeric comparison and equality. -/
def Value.toNum? : Value → Option ℚ
  | .bool b => some (if b then 1 else 0)
  | .int n => some (n : ℚ)
  | .float q => some q
  | _ => Option.none

mutual

/-- Python `==` on the modelled values: numeric cross-type equality
(`1 == True`, `1 == 1.0`), structural equality on strings and lists,
`None == None`; values of unrelated kinds compare unequal. -/
def pyEq : Value → Value → Bool
  | .none, .none => true
  | .str s, .str t => s = t
  | .list l, .list m => pyEqList l m
  | a, b =>
    match a.toNum?, b.toNum? with
    | some x, some y => x = y
    | _, _ => false

/-- Elementwise Python `==` on lists. -/
def pyEqList : List Value → List Value → Bool
  | [], [] => true
  | a :: l, b :: m => pyEq a b && pyEqList l m
  | _, _ => false

end

/-- Python truthiness of a value (`if not time:`-style tests). -/
def pyTruthy : Value → Bool
  | .none => false
  | .bool b => b
  | .int n => n ≠ 0
  | .float q => q ≠ 0
  | .str s => s ≠ ""
  | .list l => !l.isEmpty

/-- `float(x)`: exact on bool/int/float; raises `TypeError` on `None`
and lists. Parsing of numeric-literal strings is not modelled (no
theorem depends on a string reaching `float`), so strings are mapped
to `ValueError`, the error Python raises on non-numeric strings. -/
def pyFloat : Value → Except PyError ℚ
  | .bool b => .ok (if b then 1 else 0)
  | .int n => .ok (n : ℚ)
  | .float q => .ok q
  | .str _ => .error .valueError
  | .none => .error .typeError
  | .list _ => .error .typeError

/-- A Python `dict[str, Any]` argument/parameter map (association list;
first binding wins, as dict keys are unique). -/
def Params := List (String × Value)

instance : Repr Params := inferInstanceAs (Repr (List (String × Value)))

/-- `d.get(k)`: `None` when absent. -/
def Params.get (p : Params) (k : String) : Value :=
  match p.lookup k with
  | some v => v
  | Option.none => .none

/-- `d.get(k, default)`. -/
def Params.getD (p : Params) (k : String) (d : Value) : Value :=
  match p.lookup k with
  | some v => v
  | Option.none => d

/-- Membership of a key in the map. -/
def Params.hasKey (p : Params) (k : String) : Bool :=
  (p.lookup k).isSome

/-- f-string rendering of a value. Exact for the kinds any theorem
below interpolates (str, int, bool, None); the float and list
renderings are placeholders no theorem depends on. -/
def pyStr : Value → String
  | .str s => s
  | .int n => toString n
  | .bool b => if b then "True" else "False"
  | .none => "None"
  | .float q => toString q
  | .list _ => "[...]"

/-- `common/models.py` `IoTCommand` after pydantic validation:
`device` and `action` are strings, `parameters` a dict. -/
structure IoTCommand where
  device : String
  action : String
  parameters : Params

/-- Constructing an `IoTCommand` from a dynamic `action` value:
pydantic v2 rejects non-`str` input for the `action: str` field with a
`ValidationError`. -/
def mkIoTCommand (device : String) (action : Value) (parameters : Params) :
    Except PyError IoTCommand :=
  match action with
  | .str a => .ok ⟨device, a, parameters⟩
  | _ => .error .validationError

/-- One entry of the alarm device's `_alarms` list. -/
structure AlarmEntry where
  time : Value
  label : Value
  enabled : Bool
  created_at : String

/-- The `data` payload of an `IoTResult`: `{}`, a device `get_state()`
snapshot, `{"alarm": entry}` or `{"alarms": entries}`. -/
inductive DeviceData where
  | empty
  | lightState (room power : String) (brightness : ℚ)
  | thermoState (current_temp target_temp : ℚ) (mode : String)
  | alarmSet (a : AlarmEntry)
  | alarmsData (alarms : List AlarmEntry)

/-- `common/models.py` `IoTResult`. -/
structure IoTResult where
  success : Bool
  message : String
  data : DeviceData

/-! ### Light (`mcp_iot/devices/light.py`)

Device state is threaded explicitly: `execute` returns the raised-or-
returned result together with the post-call state (on the raising path
the raise happens before any field assignment, so the state is the
pre-call one). -/

/-- Mutable state of a `Light`. `_brightness` holds whatever Python
number `max(0, min(100, b))` produced, modelled as a rational. -/
structure Light where
  room : String
  power : String
  brightness : ℚ

/-- `Light.__init__`. -/
def Light.init (room : String := "default") : Light :=
  ⟨room, "off", 0⟩

/-- `Light.get_state`. -/
def Light.get_state (l : Light) : DeviceData :=
  .lightState l.room l.power l.brightness

/-- `max(0, min(100, brightness))`: numeric values (bool counts as 0/1)
are clamped; comparing a str/None/list against an int raises
`TypeError`. -/
def Light.clampBrightness (v : Value) : Except PyError ℚ :=
  match v.toNum? with
  | some q => .ok (max 0 (min 100 q))
  | Option.none => .error .typeError

/-- `Light.execute`. -/
def Light.execute (cmd : IoTCommand) (l : Light) :
    Except PyError IoTResult × Light :=
  let action := cmd.action
  let params := cmd.parameters
  if action = "on" then
    let l' : Light := { l with power := "on", brightness := 100 }
    (.ok ⟨true, l.room ++ " 조명을 켰습니다.", l'.get_state⟩, l')
  else if action = "off" then
    let l' : Light := { l with power := "off", brightness := 0 }
    (.ok ⟨true, l.room ++ " 조명을 껐습니다.", l'.get_state⟩, l')
  else if action = "set_brightness" then
    match Light.clampBrightness (params.getD "brightness" (.int 100)) with
    | .ok b =>
      let l' : Light := { l with brightness := b, power := if b > 0 then "on" else "off" }
      (.ok ⟨true, l.room ++ " 조명 밝기를 " ++ toString b ++ "%로 설정했습니다.", l'.get_state⟩, l')
    | .error e => (.error e, l)
  else
    (.ok ⟨false, "알 수 없는 동작: " ++ action, .empty⟩, l)

/-! ### Thermostat (`mcp_iot/devices/thermostat.py`) -/

/-- Mutable state of the `Thermostat`. -/
structure Thermostat where
  current_temp : ℚ
  target_temp : ℚ
  mode : String

/-- `Thermostat.__init__`. -/
def Thermostat.init (current_temp : ℚ := 22) (target_temp : ℚ := 22) : Thermostat :=
  ⟨current_temp, target_temp, "auto"⟩

/-- `Thermostat.get_state`. -/
def Thermostat.get_state (t : Thermostat) : DeviceData :=
  .thermoState t.current_temp t.target_temp t.mode

/-- `Thermostat.execute`. -/
def Thermostat.execute (cmd : IoTCommand) (t : Thermostat) :
    Except PyError IoTResult × Thermostat :=
  let params := cmd.parameters
  if cmd.action = "set_temp" then
    match params.get "temperature" with
    | .none => (.ok ⟨false, "온도를 지정해주세요.", .empty⟩, t)
    | temp =>
      match pyFloat temp with
      | .error e => (.error e, t)
      | .ok q =>
        let q' := max 10 (min 35 q)
        let t' : Thermostat :=
          { t with target_temp := q', mode := if t.mode = "off" then "auto" else t.mode }
        (.ok ⟨true, "온도를 " ++ toString q' ++ "°C로 설정했습니다.", t'.get_state⟩, t')
  else if cmd.action = "set_mode" then
    match params.get "mode" with
    | .str m =>
      if m = "off" ∨ m = "heating" ∨ m = "cooling" ∨ m = "auto" then
        let t' : Thermostat := { t with mode := m }
        let modeName :=
          if m = "off" then "끔" else if m = "heating" then "난방"
          else if m = "cooling" then "냉방" else "자동"
        (.ok ⟨true, "모드를 " ++ modeName ++ "(으)로 설정했습니다.", t'.get_state⟩, t')
      else
        (.ok ⟨false, "지원하지 않는 모드입니다: " ++ m, .empty⟩, t)
    | v => (.ok ⟨false, "지원하지 않는 모드입니다: " ++ pyStr v, .empty⟩, t)
  else if cmd.action = "off" then
    let t' : Thermostat := { t with mode := "off" }
    (.ok ⟨true, "온도 조절기를 껐습니다.", t'.get_state⟩, t')
  else
    (.ok ⟨false, "알 수 없는 동작: " ++ cmd.action, .empty⟩, t)

/-! ### Alarm (`mcp_iot/devices/alarm.py`)

`datetime.now().isoformat()` is passed in as the `now` argument; its
value never influences control flow. -/

/-- Mutable state of the `Alarm`. -/
structure Alarm where
  alarms : List AlarmEntry

/-- `Alarm.__init__`. -/
def Alarm.init : Alarm := ⟨[]⟩

/-- `Alarm.get_state`. -/
def Alarm.get_state (a : Alarm) : DeviceData :=
  .alarmsData a.alarms

/-- `Alarm.execute`. -/
def Alarm.execute (now : String) (cmd : IoTCommand) (a : Alarm) :
    Except PyError IoTResult × Alarm :=
  let params := cmd.parameters
  if cmd.action = "set" then
    let time := params.get "time"
    let label := params.getD "label" (.str "")
    if !pyTruthy time then
      (.ok ⟨false, "알람 시간을 지정해주세요.", .empty⟩, a)
    else
      let e : AlarmEntry := ⟨time, label, true, now⟩
      let a' : Alarm := ⟨a.alarms ++ [e]⟩
      (.ok ⟨true, pyStr time ++ "에 알람을 설정했습니다.", .alarmSet e⟩, a')
  else if cmd.action = "cancel" then
    let time := params.get "time"
    if !pyTruthy time then
      (.ok ⟨false, "취소할 알람 시간을 지정해주세요.", .empty⟩, a)
    else
      let remaining := a.alarms.filter (fun e => !pyEq e.time time)
      let a' : Alarm := ⟨remaining⟩
      if remaining.length < a.alarms.length then
        (.ok ⟨true, pyStr time ++ " 알람을 취소했습니다.", a'.get_state⟩, a')
      else
        (.ok ⟨false, pyStr time ++ "에 설정된 알람이 없습니다.", .empty⟩, a')
  else if cmd.action = "list" then
    (.ok ⟨true, toString a.alarms.length ++ "개의 알람이 설정되어 있습니다.", .alarmsData a.alarms⟩, a)
  else
    (.ok ⟨false, "알 수 없는 동작: " ++ cmd.action, .empty⟩, a)

/-! ### IoTController and dispatch (`mcp_iot/server.py`) -/

/-- Payload of a dispatch envelope: the `"state"`/`"data"` key holding a
device result payload, the `"states"` key of `get_device_status`, or no
payload key (failure dicts). -/
inductive EnvelopeData where
  | result (d : DeviceData)
  | states (lights : List (String × DeviceData)) (alarm : DeviceData) (thermostat : DeviceData)
  | noneData

/-- The uniform result dict built by `control_light` / `control_alarm` /
`control_thermostat` / `call_tool`. -/
structure Envelope where
  success : Bool
  message : String
  data : EnvelopeData

/-- State of an `IoTController`: the room-keyed light dict plus the
single alarm and thermostat instances. -/
structure IoTController where
  lights : List (String × Light)
  alarm : Alarm
  thermostat : Thermostat

/-- `IoTController.__init__`: three lights plus default alarm and
thermostat. -/
def IoTController.init : IoTController :=
  ⟨[("living_room", Light.init "거실"),
    ("bedroom", Light.init "침실"),
    ("kitchen", Light.init "주방")],
   Alarm.init, Thermostat.init⟩

/-- Python `room in dict` for a dynamic key against string keys: an
unhashable key (a list) raises `TypeError`; otherwise the key is
compared by `==` against each dict key. -/
def dictFindKey (keys : List String) (room : Value) : Except PyError (Option String) :=
  match room with
  | .list _ => .error .typeError
  | _ => .ok (keys.find? fun k => pyEq room (.str k))

/-- Replace the binding of `k` in an association list. -/
def assocUpdate (l : List (String × Light)) (k : String) (v : Light) :
    List (String × Light) :=
  l.map fun kv => if kv.1 = k then (k, v) else kv

/-- `IoTController.control_light`. The state is threaded alongside the
raised-or-returned envelope (a raise leaves already-applied mutations
in place). -/
def IoTController.control_light (c : IoTController) (room action : Value)
    (brightness : Option Value) : Except PyError Envelope × IoTController :=
  match dictFindKey (c.lights.map Prod.fst) room with
  | .error e => (.error e, c)
  | .ok Option.none =>
    (.ok ⟨false, "알 수 없는 방: " ++ pyStr room, .noneData⟩, c)
  | .ok (some k) =>
    let params : Params :=
      match brightness with
      | some .none => []
      | Option.none => []
      | some v => [("brightness", v)]
    match mkIoTCommand "light" action params with
    | .error e => (.error e, c)
    | .ok cmd =>
      let light := (c.lights.lookup k).getD (Light.init "default")
      let (r, light') := Light.execute cmd light
      let c' := { c with lights := assocUpdate c.lights k light' }
      match r with
      | .ok res => (.ok ⟨res.success, res.message, .result res.data⟩, c')
      | .error e => (.error e, c')

/-- `x if truthy` guard used by `control_alarm` (`if time:` /
`if label:`): the parameter is added only when bound and truthy. -/
def truthyOpt (v : Option Value) : Option Value :=
  match v with
  | some x => if pyTruthy x then some x else Option.none
  | Option.none => Option.none

/-- `x if x is not None` guard used for `brightness`/`temperature`. -/
def notNoneOpt (v : Option Value) : Option Value :=
  match v with
  | some .none => Option.none
  | some x => some x
  | Option.none => Option.none

/-- `IoTController.control_alarm`. -/
def IoTController.control_alarm (c : IoTController) (now : String) (action : Value)
    (time label : Option Value) : Except PyError Envelope × IoTController :=
  let params : Params :=
    (match truthyOpt time with
     | some v => [("time", v)]
     | Option.none => []) ++
    (match truthyOpt label with
     | some v => [("label", v)]
     | Option.none => [])
  match mkIoTCommand "alarm" action params with
  | .error e => (.error e, c)
  | .ok cmd =>
    let (r, alarm') := Alarm.execute now cmd c.alarm
    let c' := { c with alarm := alarm' }
    match r with
    | .ok res => (.ok ⟨res.success, res.message, .result res.data⟩, c')
    | .error e => (.error e, c')

/-- `IoTController.control_thermostat`. -/
def IoTController.control_thermostat (c : IoTController) (action : Value)
    (temperature mode : Option Value) : Except PyError Envelope × IoTController :=
  let params : Params :=
    (match notNoneOpt temperature with
     | some v => [("temperature", v)]
     | Option.none => []) ++
    (match truthyOpt mode with
     | some v => [("mode", v)]
     | Option.none => [])
  match mkIoTCommand "thermostat" action params with
  | .error e => (.error e, c)
  | .ok cmd =>
    let (r, th') := Thermostat.execute cmd c.thermostat
    let c' := { c with thermostat := th' }
    match r with
    | .ok res => (.ok ⟨res.success, res.message, .result res.data⟩, c')
    | .error e => (.error e, c')

/-- `IoTController.get_all_states`. -/
def IoTController.get_all_states (c : IoTController) : EnvelopeData :=
  .states (c.lights.map fun kv => (kv.1, kv.2.get_state))
    c.alarm.get_state c.thermostat.get_state

/-! Python `f(**arguments)` keyword binding: a missing required
parameter or an unexpected keyword raises `TypeError`. -/

/-- Bind `**arguments` against `control_light(room, action, brightness=None)`. -/
def bindControlLight (args : Params) : Except PyError (Value × Value × Option Value) :=
  if args.all (fun kv => kv.1 == "room" || kv.1 == "action" || kv.1 == "brightness") then
    match args.lookup "room", args.lookup "action" with
    | some r, some a => .ok (r, a, args.lookup "brightness")
    | _, _ => .error .typeError
  else .error .typeError

/-- Bind `**arguments` against `control_alarm(action, time=None, label=None)`. -/
def bindControlAlarm (args : Params) : Except PyError (Value × Option Value × Option Value) :=
  if args.all (fun kv => kv.1 == "action" || kv.1 == "time" || kv.1 == "label") then
    match args.lookup "action" with
    | some a => .ok (a, args.lookup "time", args.lookup "label")
    | Option.none => .error .typeError
  else .error .typeError

/-- Bind `**arguments` against
`control_thermostat(action, temperature=None, mode=None)`. -/
def bindControlThermostat (args : Params) :
    Except PyError (Value × Option Value × Option Value) :=
  if args.all (fun kv => kv.1 == "action" || kv.1 == "temperature" || kv.1 == "mode") then
    match args.lookup "action" with
    | some a => .ok (a, args.lookup "temperature", args.lookup "mode")
    | Option.none => .error .typeError
  else .error .typeError

/-- `call_tool` of `create_mcp_server` (`mcp_iot/server.py`): route the
tool name, `**`-bind the arguments into the controller method, and
return its result dict (the final `json.dumps` into a `TextContent` is
not modelled; the dict it serializes is returned as is). -/
def call_tool (name : String) (arguments : Params) (now : String)
    (c : IoTController) : Except PyError Envelope × IoTController :=
  if name = "control_light" then
    match bindControlLight arguments with
    | .error e => (.error e, c)
    | .ok (room, action, brightness) => c.control_light room action brightness
  else if name = "control_alarm" then
    match bindControlAlarm arguments with
    | .error e => (.error e, c)
    | .ok (action, time, label) => c.control_alarm now action time label
  else if name = "control_thermostat" then
    match bindControlThermostat arguments with
    | .error e => (.error e, c)
    | .ok (action, temperature, mode) => c.control_thermostat action temperature mode
  else if name = "get_device_status" then
    (.ok ⟨true, "디바이스 상태 조회 완료", c.get_all_states⟩, c)
  else
    (.ok ⟨false, "Unknown tool: " ++ name, .noneData⟩, c)

/-- `_execute_tool` of `ClaudeLLM` and `OpenAILLM` (`server/llm/*.py`):
both bodies perform exactly the same routing and `**`-binding as the
MCP `call_tool` (same branches, same controller methods, same
`get_device_status` and unknown-tool dicts), so the embedding is
shared. -/
def executeTool (name : String) (arguments : Params) (now : String)
    (c : IoTController) : Except PyError Envelope × IoTController :=
  call_tool name arguments now c

/-! ### Tool catalog (`IoTController.get_tools`) -/

/-- One property of a tool's `inputSchema`. -/
structure PropSpec where
  type : String
  description : String
  enum : Option (List String) := Option.none
  minimum : Option ℚ := Option.none
  maximum : Option ℚ := Option.none
  pattern : Option String := Option.none

/-- One tool description returned by `get_tools`. -/
structure ToolSpec where
  name : String
  description : String
  properties : List (String × PropSpec)
  required : List String

/-- `IoTController.get_tools`, transcribed field by field. -/
def get_tools : List ToolSpec :=
  [⟨"control_light",
    "조명을 제어합니다. 켜기, 끄기, 밝기 조절이 가능합니다.",
    [("room", { type := "string",
                description := "방 이름 (living_room, bedroom, kitchen)",
                enum := some ["living_room", "bedroom", "kitchen"] }),
     ("action", { type := "string",
                  description := "동작 (on, off, set_brightness)",
                  enum := some ["on", "off", "set_brightness"] }),
     ("brightness", { type := "integer",
                      description := "밝기 (0-100), set_brightness 동작 시 필요",
                      minimum := some 0, maximum := some 100 })],
    ["room", "action"]⟩,
   ⟨"control_alarm",
    "알람을 제어합니다. 설정, 취소, 목록 조회가 가능합니다.",
    [("action", { type := "string",
                  description := "동작 (set, cancel, list)",
                  enum := some ["set", "cancel", "list"] }),
     ("time", { type := "string",
                description := "알람 시간 (HH:MM 형식)",
                pattern := some "^([01]?[0-9]|2[0-3]):[0-5][0-9]$" }),
     ("label", { type := "string",
                 description := "알람 라벨" })],
    ["action"]⟩,
   ⟨"control_thermostat",
    "온도 조절기를 제어합니다. 온도 설정, 모드 변경이 가능합니다.",
    [("action", { type := "string",
                  description := "동작 (set_temp, set_mode, off)",
                  enum := some ["set_temp", "set_mode", "off"] }),
     ("temperature", { type := "number",
                       description := "목표 온도 (10-35°C)",
                       minimum := some 10, maximum := some 35 }),
     ("mode", { type := "string",
                description := "모드 (heating, cooling, auto)",
                enum := some ["heating", "cooling", "auto"] })],
    ["action"]⟩,
   ⟨"get_device_status",
    "모든 디바이스의 현재 상태를 조회합니다.",
    [],
    []⟩]

/-- The catalog's enum for a parameter of a tool, `[]` when absent. -/
def catalogEnum (tool param : String) : List String :=
  match (get_tools.find? fun t => t.name = tool) with
  | Option.none => []
  | some t =>
    match t.properties.lookup param with
    | Option.none => []
    | some p => p.enum.getD []

/-! ### Orchestration loop, Claude shape (`server/llm/claude_llm.py`)

The model provider is replaced by a stub: a list of `ModelResponse`s
consumed one per provider call. `process_async` has no iteration bound,
so a run either reaches a non-`tool_use` response, raises, or exhausts
the stub (`stubExhausted` marks that the unbounded `while` loop would
call the provider yet again). -/

/-- The system prompt shared by both LLM classes. -/
def SYSTEM_PROMPT : String :=
  "당신은 스마트 홈 AI 어시스턴트입니다.\n사용자의 음성 명령을 이해하고 적절한 IoT 디바이스를 제어합니다.\n\n사용 가능한 디바이스:\n- 조명 (거실, 침실, 주방): 켜기, 끄기, 밝기 조절\n- 알람: 설정, 취소, 목록 조회\n- 온도 조절기: 온도 설정, 모드 변경\n\n항상 친절하고 자연스러운 한국어로 응답해주세요."

/-- A `tool_use` content block of an Anthropic response. -/
structure ToolUseBlock where
  id : String
  name : String
  input : Params

/-- A content block of an Anthropic response. -/
inductive ContentBlock where
  | text (s : String)
  | toolUse (b : ToolUseBlock)

/-- An Anthropic response: `stop_reason` plus content blocks. -/
structure ModelResponse where
  stop_reason : String
  content : List ContentBlock

/-- One `{"type": "tool_result", ...}` entry; its `content` is
`json.dumps(result)`, modelled as the result dict itself. -/
structure ToolResultBlock where
  tool_use_id : String
  content : Envelope

/-- A message appended to the Claude conversation history (the system
prompt travels as a separate request field, not as a message). -/
inductive MessageC where
  | user (text : String)
  | assistant (content : List ContentBlock)
  | toolResults (results : List ToolResultBlock)

/-- `[block for block in response.content if block.type == "tool_use"]`. -/
def toolUses (content : List ContentBlock) : List ToolUseBlock :=
  content.filterMap fun b =>
    match b with
    | .toolUse t => some t
    | _ => Option.none

/-- `LLMResponse` of `common/models.py`. -/
structure LLMResponse where
  text : String
  commands : List IoTCommand

/-- How a stubbed `process_async` run ends short of an `LLMResponse`:
a Python exception propagates, or the unbounded loop asks the provider
for yet another turn after the stub's script is spent. -/
inductive RunError where
  | raised (e : PyError)
  | stubExhausted

/-- The per-turn `for tool_use in tool_uses:` body of
`ClaudeLLM.process_async`: execute the tool, record the command
(`device` from the tool name with the `control_` prefix stripped,
`action` from the arguments or `"unknown"`), and build the
`tool_result` entry carrying the call's id. -/
def execToolUses (now : String) : List ToolUseBlock → IoTController →
    Except PyError (List ToolResultBlock × List IoTCommand × IoTController)
  | [], c => .ok ([], [], c)
  | tu :: rest, c =>
    let (r, c') := executeTool tu.name tu.input now c
    match r with
    | .error e => .error e
    | .ok env =>
      match mkIoTCommand (tu.name.replace "control_" "")
          (tu.input.getD "action" (.str "unknown")) tu.input with
      | .error e => .error e
      | .ok cmd =>
        match execToolUses now rest c' with
        | .error e => .error e
        | .ok (rs, cs, c'') => .ok (⟨tu.id, env⟩ :: rs, cmd :: cs, c'')

/-- The `while response.stop_reason == "tool_use":` loop of
`ClaudeLLM.process_async`, with the provider stubbed by `script`. -/
def runClaudeLoop : ModelResponse → List ModelResponse → String → IoTController →
    List MessageC → List IoTCommand →
    Except RunError (LLMResponse × IoTController × List MessageC)
  | resp, script, now, c, messages, cmds =>
    if resp.stop_reason = "tool_use" then
      let messages1 := messages ++ [.assistant resp.content]
      match execToolUses now (toolUses resp.content) c with
      | .error e => .error (.raised e)
      | .ok (results, newCmds, c') =>
        let messages2 := messages1 ++ [.toolResults results]
        match script with
        | [] => .error .stubExhausted
        | next :: rest => runClaudeLoop next rest now c' messages2 (cmds ++ newCmds)
    else
      let text :=
        (resp.content.filterMap fun b =>
          match b with
          | .text s => some s
          | _ => Option.none).headD ""
      .ok (⟨text, cmds⟩, c, messages)

/-- `ClaudeLLM.process_async` against a stubbed provider: seed the
history with the optional context and the user message, then run the
tool-use loop. -/
def processAsyncClaude (script : List ModelResponse) (text : String)
    (context : List MessageC) (now : String) (c : IoTController) :
    Except RunError (LLMResponse × IoTController × List MessageC) :=
  let messages := context ++ [MessageC.user text]
  match script with
  | [] => .error .stubExhausted
  | first :: rest => runClaudeLoop first rest now c messages []

/-! ### Orchestration loop, OpenAI shape (`server/llm/openai_llm.py`) -/

/-- One entry of `choice.message.tool_calls`; `function.arguments` is a
JSON string the loop immediately `json.loads`es, modelled as the
already-parsed map. -/
structure ToolCallO where
  id : String
  name : String
  arguments : Params

/-- `choice.message` of an OpenAI response. -/
structure ChoiceMessage where
  content : Option String
  tool_calls : List ToolCallO

/-- `response.choices[0]` of an OpenAI response. -/
structure ChoiceO where
  finish_reason : String
  message : ChoiceMessage

/-- A message appended to the OpenAI conversation history. -/
inductive MessageO where
  | system (s : String)
  | user (s : String)
  | assistantToolCalls (content : Option String) (tool_calls : List ToolCallO)
  | tool (tool_call_id : String) (content : Envelope)

/-- The per-turn `for tool_call in choice.message.tool_calls:` body of
`OpenAILLM.process_async`: execute, record the command, and append one
`{"role": "tool", ...}` message per call carrying the call's id. -/
def execToolCallsO (now : String) : List ToolCallO → IoTController →
    Except PyError (List MessageO × List IoTCommand × IoTController)
  | [], c => .ok ([], [], c)
  | tc :: rest, c =>
    let (r, c') := executeTool tc.name tc.arguments now c
    match r with
    | .error e => .error e
    | .ok env =>
      match mkIoTCommand (tc.name.replace "control_" "")
          (tc.arguments.getD "action" (.str "unknown")) tc.arguments with
      | .error e => .error e
      | .ok cmd =>
        match execToolCallsO now rest c' with
        | .error e => .error e
        | .ok (ms, cs, c'') => .ok (.tool tc.id env :: ms, cmd :: cs, c'')

/-- The `while choice.finish_reason == "tool_calls" and
choice.message.tool_calls:` loop of `OpenAILLM.process_async`. -/
def runOpenAILoop : ChoiceO → List ChoiceO → String → IoTController →
    List MessageO → List IoTCommand →
    Except RunError (LLMResponse × IoTController × List MessageO)
  | choice, script, now, c, messages, cmds =>
    if choice.finish_reason == "tool_calls" && !choice.message.tool_calls.isEmpty then
      let messages1 :=
        messages ++ [.assistantToolCalls choice.message.content choice.message.tool_calls]
      match execToolCallsO now choice.message.tool_calls c with
      | .error e => .error (.raised e)
      | .ok (toolMsgs, newCmds, c') =>
        let messages2 := messages1 ++ toolMsgs
        match script with
        | [] => .error .stubExhausted
        | next :: rest => runOpenAILoop next rest now c' messages2 (cmds ++ newCmds)
    else
      .ok (⟨choice.message.content.getD "", cmds⟩, c, messages)

/-- `OpenAILLM.process_async` against a stubbed provider: the history
is seeded with the system prompt, the optional context and the user
message. -/
def processAsyncOpenAI (script : List ChoiceO) (text : String)
    (context : List MessageO) (now : String) (c : IoTController) :
    Except RunError (LLMResponse × IoTController × List MessageO) :=
  let messages := [MessageO.system SYSTEM_PROMPT] ++ context ++ [MessageO.user text]
  match script with
  | [] => .error .stubExhausted
  | first :: rest => runOpenAILoop first rest now c messages []

/-- The power/brightness coupling of a `Light`. -/
def Light.inv (l : Light) : Prop :=
  (l.power = "on" ↔ 0 < l.brightness) ∧ (l.power = "off" ↔ l.brightness = 0)

/-- The `success` flag of a dispatch envelope that was returned rather
than raised. -/
def envelopeSuccess : Except PyError Envelope → Option Bool
  | .ok e => some e.success
  | .error _ => Option.none

/-- Alarm states the program can construct: the initial empty state and
everything `execute` produces from a reachable state. -/
inductive AlarmReachable : Alarm → Prop where
  | init : AlarmReachable Alarm.init
  | step (now : String) (cmd : IoTCommand) {a : Alarm} :
      AlarmReachable a → AlarmReachable (Alarm.execute now cmd a).2

/-- A provider stub turn that always requests one more tool call
(Anthropic response shape). -/
def alwaysToolResponse : ModelResponse :=
  ⟨"tool_use", [.toolUse ⟨"toolu_01", "control_light",
    [("room", .str "living_room"), ("action", .str "on")]⟩]⟩

/-- The same always-tool stub turn in the OpenAI response shape. -/
def alwaysToolChoice : ChoiceO :=
  ⟨"tool_calls", ⟨Option.none, [⟨"call_01", "control_light",
    [("room", .str "living_room"), ("action", .str "on")]⟩]⟩⟩

/-! ### C8: per-turn tool-result correlation and command ordering -/

/-- The action string the loop records for a tool call:
`arguments.get("action", "unknown")` (a non-string action would have
raised in the `IoTCommand` constructor, so in a completed run this is
the recorded value). -/
def strOfAction (args : Params) : String :=
  match Params.getD args "action" (.str "unknown") with
  | .str a => a
  | _ => "unknown"

/-- The `IoTCommand` the loop records for a tool call with name `name`
and arguments `args`. -/
def recordedCommand (name : String) (args : Params) : IoTCommand :=
  ⟨name.replace "control_" "", strOfAction args, args⟩

/-- The prefix of stub turns the loop processes as tool turns. -/
def scriptToolTurns (script : List ModelResponse) : List ModelResponse :=
  script.takeWhile (fun r => r.stop_reason == "tool_use")

/-- The request ids of one provider turn, in the order received. -/
def turnRequestIds (r : ModelResponse) : List String :=
  (toolUses r.content).map (fun tu => tu.id)

/-- The commands a provider turn makes the loop record, in order. -/
def turnCommands (r : ModelResponse) : List IoTCommand :=
  (toolUses r.content).map (fun tu => recordedCommand tu.name tu.input)

/-- Per tool-result message of the history, the `tool_use_id`s of its
entries in order. -/
def toolResultIdTurns (msgs : List MessageC) : List (List String) :=
  msgs.filterMap fun m =>
    match m with
    | .toolResults rs => some (rs.map fun r => r.tool_use_id)
    | _ => Option.none

/-- Per assistant message of the history, the ids of its tool-use
requests in order. -/
def assistantRequestIdTurns (msgs : List MessageC) : List (List String) :=
  msgs.filterMap fun m =>
    match m with
    | .assistant content => some ((toolUses content).map fun tu => tu.id)
    | _ => Option.none

/-- The prefix of stub turns the OpenAI loop processes as tool turns. -/
def scriptToolTurnsO (script : List ChoiceO) : List ChoiceO :=
  script.takeWhile (fun ch => ch.finish_reason == "tool_calls" && !ch.message.tool_calls.isEmpty)

/-- The request ids of one OpenAI provider turn, in order. -/
def turnRequestIdsO (ch : ChoiceO) : List String :=
  ch.message.tool_calls.map fun tc => tc.id

/-- The commands one OpenAI provider turn makes the loop record. -/
def turnCommandsO (ch : ChoiceO) : List IoTCommand :=
  ch.message.tool_calls.map fun tc => recordedCommand tc.name tc.arguments

/-- Per assistant tool-call message, the ids of its requests in
order. -/
def assistantRequestIdTurnsO (msgs : List MessageO) : List (List String) :=
  msgs.filterMap fun m =>
    match m with
    | .assistantToolCalls _ tcs => some (tcs.map fun tc => tc.id)
    | _ => Option.none

mutual

/-- Group the `{"role": "tool"}` messages of an OpenAI history by the
assistant tool-call message they follow, keeping their ids in order. -/
def toolMsgIdGroups : List MessageO → List (List String)
  | [] => []
  | .assistantToolCalls _ _ :: rest => toolMsgIdGroupsIn [] rest
  | _ :: rest => toolMsgIdGroups rest

/-- Collecting state of `toolMsgIdGroups`: inside a turn, accumulate
the contiguous run of tool-message ids. -/
def toolMsgIdGroupsIn (acc : List String) : List MessageO → List (List String)
  | [] => [acc]
  | .tool i _ :: rest => toolMsgIdGroupsIn (acc ++ [i]) rest
  | .assistantToolCalls _ _ :: rest => acc :: toolMsgIdGroupsIn [] rest
  | m :: rest => acc :: toolMsgIdGroups (m :: rest)

end

/-! ## Theorems -/

/-- The `success` flag of a dispatch that returned rather than raised. -/
def resultSuccess : Except PyError IoTResult → Option Bool
  | .ok r => some r.success
  | .error _ => Option.none

/-- C5: for every light state and every `set_brightness` command whose
brightness parameter is numeric with value `q`, the post-state
brightness is `q` clamped to `[0, 100]`, and the power field is `"on"`
exactly when the resulting brightness is positive and `"off"` exactly
when it is `0`. -/
theorem light_set_brightness_clamps (dev : String) (l : Light) (params : Params) (q : ℚ)
    (h : (Params.getD params "brightness" (.int 100)).toNum? = some q) :
    (Light.execute ⟨dev, "set_brightness", params⟩ l).2.brightness = max 0 (min 100 q) ∧
    ((Light.execute ⟨dev, "set_brightness", params⟩ l).2.power = "on"
      ↔ 0 < (Light.execute ⟨dev, "set_brightness", params⟩ l).2.brightness) ∧
    ((Light.execute ⟨dev, "set_brightness", params⟩ l).2.power = "off"
      ↔ (Light.execute ⟨dev, "set_brightness", params⟩ l).2.brightness = 0) := by
  have hcl : Light.clampBrightness (Params.getD params "brightness" (.int 100)) =
      .ok (max 0 (min 100 q)) := by
    simp [Light.clampBrightness, h]
  have hnn : (0 : ℚ) ≤ max 0 (min 100 q) := le_max_left _ _
  simp only [Light.execute, hcl]
  norm_num
  by_cases h0 : 0 < max 0 (min 100 q)
  · have hq : 0 < q := by
      rcases lt_max_iff.mp h0 with h' | h'
      · exact absurd h' (lt_irrefl 0)
      · exact (lt_min_iff.mp h').2
    simp [h0, ne_of_gt h0, hq]
  · have hz : max 0 (min 100 q) = 0 := le_antisymm (not_lt.mp h0) hnn
    have hq : q ≤ 0 := by
      have h' : min (100 : ℚ) q ≤ 0 := (max_le_iff.mp (le_of_eq hz)).2
      rcases min_le_iff.mp h' with h'' | h''
      · exact absurd h'' (by norm_num)
      · exact h''
    simp [h0, hz, hq]

/-- C5 witness: brightness 150 clamps to 100 with power `"on"`. -/
theorem light_set_brightness_clamps_witness :
    (Light.execute ⟨"light", "set_brightness", [("brightness", Value.int 150)]⟩
        (Light.init "거실")).2.brightness = max 0 (min 100 150) :=
  (light_set_brightness_clamps "light" (Light.init "거실")
    [("brightness", Value.int 150)] 150 (by decide)).1

/-- C4: for every thermostat state and `set_temp` command: an absent
(or `None`) temperature parameter yields `success=false` with the state
unchanged; a numeric temperature `q` succeeds, sets the target to `q`
clamped to `[10, 35]`, turns mode `"off"` into `"auto"` and leaves any
other mode (and the current temperature) unchanged. -/
theorem thermostat_set_temp_spec (dev : String) (t : Thermostat) (params : Params) :
    (Params.get params "temperature" = .none →
      (Thermostat.execute ⟨dev, "set_temp", params⟩ t).1 =
        .ok ⟨false, "온도를 지정해주세요.", .empty⟩ ∧
      (Thermostat.execute ⟨dev, "set_temp", params⟩ t).2 = t) ∧
    (∀ q : ℚ, pyFloat (Params.get params "temperature") = .ok q →
      resultSuccess (Thermostat.execute ⟨dev, "set_temp", params⟩ t).1 = some true ∧
      (Thermostat.execute ⟨dev, "set_temp", params⟩ t).2.target_temp = max 10 (min 35 q) ∧
      (Thermostat.execute ⟨dev, "set_temp", params⟩ t).2.mode =
        (if t.mode = "off" then "auto" else t.mode) ∧
      (Thermostat.execute ⟨dev, "set_temp", params⟩ t).2.current_temp = t.current_temp) := by
  constructor
  · intro hnone
    simp [Thermostat.execute, hnone]
  · intro q hq
    cases hv : Params.get params "temperature" with
    | none => rw [hv] at hq; exact absurd hq (by simp [pyFloat])
    | str s => rw [hv] at hq; exact absurd hq (by simp [pyFloat])
    | list l => rw [hv] at hq; exact absurd hq (by simp [pyFloat])
    | bool b => rw [hv] at hq; simp [Thermostat.execute, hv, hq, resultSuccess]
    | int n => rw [hv] at hq; simp [Thermostat.execute, hv, hq, resultSuccess]
    | float x => rw [hv] at hq; simp [Thermostat.execute, hv, hq, resultSuccess]

/-- C4 witness: requested 50°C from mode `"off"` clamps to 35 and
auto-transitions the mode to `"auto"`. -/
theorem thermostat_set_temp_spec_witness :
    (Thermostat.execute ⟨"thermostat", "set_temp", [("temperature", Value.int 50)]⟩
        ⟨22, 22, "off"⟩).2.target_temp = max 10 (min 35 50) ∧
    (Thermostat.execute ⟨"thermostat", "set_temp", [("temperature", Value.int 50)]⟩
        ⟨22, 22, "off"⟩).2.mode = (if ("off" : String) = "off" then "auto" else "off") :=
  ⟨((thermostat_set_temp_spec "thermostat" ⟨22, 22, "off"⟩
      [("temperature", Value.int 50)]).2 50 (by norm_num [pyFloat, Params.get])).2.1,
   ((thermostat_set_temp_spec "thermostat" ⟨22, 22, "off"⟩
      [("temperature", Value.int 50)]).2 50 (by norm_num [pyFloat, Params.get])).2.2.1⟩

/-- A clamped brightness is the clamp of some numeric input, hence
nonnegative. -/
theorem Light.clampBrightness_ok (v : Value) (b : ℚ)
    (h : Light.clampBrightness v = .ok b) : 0 ≤ b := by
  unfold Light.clampBrightness at h
  cases hv : v.toNum? with
  | none => rw [hv] at h; exact absurd h (by simp)
  | some q =>
    rw [hv] at h
    simp only [Except.ok.injEq] at h
    rw [← h]
    exact le_max_left _ _

/-- C9: the `Light` invariant — power is `"on"` iff brightness is
positive and `"off"` iff brightness is zero — holds in the initial
state and is preserved by every `execute` call, failed ones included. -/
theorem light_invariant_preserved :
    (∀ room, Light.inv (Light.init room)) ∧
    ∀ (cmd : IoTCommand) (l : Light), Light.inv l → Light.inv (Light.execute cmd l).2 := by
  constructor
  · intro room
    constructor <;> simp [Light.init]
  · intro cmd l hl
    by_cases h1 : cmd.action = "on"
    · constructor <;> simp [Light.execute, h1]
    by_cases h2 : cmd.action = "off"
    · constructor <;> simp [Light.execute, h1, h2]
    by_cases h3 : cmd.action = "set_brightness"
    · cases hcl : Light.clampBrightness (Params.getD cmd.parameters "brightness" (.int 100)) with
      | error e => simpa [Light.execute, h1, h2, h3, hcl] using hl
      | ok b =>
        have hb : 0 ≤ b := Light.clampBrightness_ok _ _ hcl
        by_cases h0 : 0 < b
        · constructor <;> simp [Light.execute, h1, h2, h3, hcl, h0, ne_of_gt h0]
        · have hz : b = 0 := le_antisymm (not_lt.mp h0) hb
          constructor <;> simp [Light.execute, h1, h2, h3, hcl, h0, hz]
    · simpa [Light.execute, h1, h2, h3] using hl

/-- C9 witness: the invariant holds initially and survives a failed
(unknown-action) command. -/
theorem light_invariant_preserved_witness :
    Light.inv (Light.execute ⟨"light", "blink", []⟩ (Light.init "거실")).2 :=
  light_invariant_preserved.2 ⟨"light", "blink", []⟩ (Light.init "거실")
    (light_invariant_preserved.1 "거실")

/-- C10: a `set_brightness` command whose parameter map has no
`"brightness"` key succeeds and defaults to brightness 100 with power
`"on"` (no missing-parameter validation failure); the dispatcher
produces exactly this situation when it receives no brightness
argument, shown on the initial controller for the living-room light. -/
theorem light_set_brightness_missing_defaults :
    (∀ (dev : String) (l : Light) (params : Params),
      List.lookup "brightness" params = Option.none →
      resultSuccess (Light.execute ⟨dev, "set_brightness", params⟩ l).1 = some true ∧
      (Light.execute ⟨dev, "set_brightness", params⟩ l).2.brightness = 100 ∧
      (Light.execute ⟨dev, "set_brightness", params⟩ l).2.power = "on") ∧
    (envelopeSuccess (IoTController.init.control_light (.str "living_room")
        (.str "set_brightness") Option.none).1 = some true ∧
      ((IoTController.init.control_light (.str "living_room")
          (.str "set_brightness") Option.none).2.lights.lookup
        "living_room").map Light.brightness = some 100 ∧
      ((IoTController.init.control_light (.str "living_room")
          (.str "set_brightness") Option.none).2.lights.lookup
        "living_room").map Light.power = some "on") := by
  constructor
  · intro dev l params h
    have hd : Params.getD params "brightness" (.int 100) = .int 100 := by
      simp [Params.getD, h]
    have hcl : Light.clampBrightness (Params.getD params "brightness" (.int 100)) =
        .ok 100 := by
      rw [hd]; simp [Light.clampBrightness, Value.toNum?]
    refine ⟨?_, ?_, ?_⟩ <;> simp [Light.execute, hcl, resultSuccess]
  · refine ⟨by decide, by decide, by decide⟩

/-- C10 witness: device-level default at a concrete empty parameter
map. -/
theorem light_set_brightness_missing_defaults_witness :
    (Light.execute ⟨"light", "set_brightness", []⟩ (Light.init "주방")).2.brightness = 100 :=
  (light_set_brightness_missing_defaults.1 "light" (Light.init "주방") [] rfl).2.1

/-- C3 counterexample: `Thermostat.execute` raises. `set_temp` with a
list-valued temperature reaches `float([])`, which raises `TypeError`
out of `execute` instead of returning a failed `IoTResult`. -/
theorem device_execute_raises_counterexample :
    (Thermostat.execute ⟨"thermostat", "set_temp", [("temperature", Value.list [])]⟩
        Thermostat.init).1 = .error .typeError := rfl

/-- A numeric value is accepted by `float`. -/
theorem pyFloat_of_toNum (v : Value) (q : ℚ) (h : v.toNum? = some q) :
    pyFloat v = .ok q := by
  cases v <;> simp_all [Value.toNum?, pyFloat]

/-- C3 amended: `Alarm.execute` never raises; `Light.execute` and
`Thermostat.execute` never raise as long as the numeric parameter they
clamp (brightness resp. temperature) is numeric or absent; and for
every command whose action is unsupported by the target device type the
result is `success=false`, unconditionally and without raising. -/
theorem device_execute_total_amended :
    (∀ (now : String) (cmd : IoTCommand) (a : Alarm),
      ∃ res, (Alarm.execute now cmd a).1 = .ok res) ∧
    (∀ (cmd : IoTCommand) (l : Light),
      (cmd.action = "set_brightness" →
        (Params.getD cmd.parameters "brightness" (.int 100)).toNum?.isSome) →
      ∃ res, (Light.execute cmd l).1 = .ok res) ∧
    (∀ (cmd : IoTCommand) (t : Thermostat),
      (cmd.action = "set_temp" →
        Params.get cmd.parameters "temperature" = .none ∨
        (Params.get cmd.parameters "temperature").toNum?.isSome) →
      ∃ res, (Thermostat.execute cmd t).1 = .ok res) ∧
    (∀ (now : String) (cmd : IoTCommand) (a : Alarm),
      cmd.action ∉ (["set", "cancel", "list"] : List String) →
      resultSuccess (Alarm.execute now cmd a).1 = some false) ∧
    (∀ (cmd : IoTCommand) (l : Light),
      cmd.action ∉ (["on", "off", "set_brightness"] : List String) →
      resultSuccess (Light.execute cmd l).1 = some false) ∧
    (∀ (cmd : IoTCommand) (t : Thermostat),
      cmd.action ∉ (["set_temp", "set_mode", "off"] : List String) →
      resultSuccess (Thermostat.execute cmd t).1 = some false) := by
  refine ⟨?_, ?_, ?_, ?_, ?_, ?_⟩
  · intro now cmd a
    by_cases h1 : cmd.action = "set"
    · by_cases ht : pyTruthy (Params.get cmd.parameters "time") <;>
        simp [Alarm.execute, h1, ht]
    by_cases h2 : cmd.action = "cancel"
    · by_cases ht : pyTruthy (Params.get cmd.parameters "time")
      · by_cases hlt :
          (a.alarms.filter fun e => !pyEq e.time (Params.get cmd.parameters "time")).length <
            a.alarms.length <;>
          simp [Alarm.execute, h1, h2, ht, hlt]
      · simp [Alarm.execute, h1, h2, ht]
    by_cases h3 : cmd.action = "list"
    · simp [Alarm.execute, h1, h2, h3]
    · simp [Alarm.execute, h1, h2, h3]
  · intro cmd l hnum
    by_cases h1 : cmd.action = "on"
    · simp [Light.execute, h1]
    by_cases h2 : cmd.action = "off"
    · simp [Light.execute, h1, h2]
    by_cases h3 : cmd.action = "set_brightness"
    · obtain ⟨q, hq⟩ := Option.isSome_iff_exists.mp (hnum h3)
      have hcl : Light.clampBrightness (Params.getD cmd.parameters "brightness" (.int 100)) =
          .ok (max 0 (min 100 q)) := by
        simp [Light.clampBrightness, hq]
      simp [Light.execute, h1, h2, h3, hcl]
    · simp [Light.execute, h1, h2, h3]
  · intro cmd t hnum
    by_cases h1 : cmd.action = "set_temp"
    · rcases hnum h1 with hn | hn
      · simp [Thermostat.execute, h1, hn]
      · obtain ⟨q, hq⟩ := Option.isSome_iff_exists.mp hn
        have hf := pyFloat_of_toNum _ _ hq
        cases hv : Params.get cmd.parameters "temperature" with
        | none => rw [hv] at hq; simp [Value.toNum?] at hq
        | bool b => rw [hv] at hf; simp [Thermostat.execute, h1, hv, hf]
        | int n => rw [hv] at hf; simp [Thermostat.execute, h1, hv, hf]
        | float x => rw [hv] at hf; simp [Thermostat.execute, h1, hv, hf]
        | str s => rw [hv] at hq; simp [Value.toNum?] at hq
        | list xs => rw [hv] at hq; simp [Value.toNum?] at hq
    by_cases h2 : cmd.action = "set_mode"
    · cases hv : Params.get cmd.parameters "mode" with
      | str m =>
        by_cases hm : m = "off" ∨ m = "heating" ∨ m = "cooling" ∨ m = "auto" <;>
          simp [Thermostat.execute, h1, h2, hv, hm]
      | none => simp [Thermostat.execute, h1, h2, hv]
      | bool b => simp [Thermostat.execute, h1, h2, hv]
      | int n => simp [Thermostat.execute, h1, h2, hv]
      | float x => simp [Thermostat.execute, h1, h2, hv]
      | list xs => simp [Thermostat.execute, h1, h2, hv]
    by_cases h3 : cmd.action = "off"
    · simp [Thermostat.execute, h1, h2, h3]
    · simp [Thermostat.execute, h1, h2, h3]
  · intro now cmd a h
    simp only [List.mem_cons, List.mem_singleton, not_or] at h
    obtain ⟨h1, h2, h3⟩ := h
    simp [Alarm.execute, h1, h2, h3, resultSuccess]
  · intro cmd l h
    simp only [List.mem_cons, List.mem_singleton, not_or] at h
    obtain ⟨h1, h2, h3⟩ := h
    simp [Light.execute, h1, h2, h3, resultSuccess]
  · intro cmd t h
    simp only [List.mem_cons, List.mem_singleton, not_or] at h
    obtain ⟨h1, h2, h3⟩ := h
    simp [Thermostat.execute, h1, h2, h3, resultSuccess]

/-- C3 amended witness: a `"blink"` command is unsupported by the light
and yields `success=false` without raising. -/
theorem device_execute_total_amended_witness :
    resultSuccess (Light.execute ⟨"light", "blink", []⟩ (Light.init "거실")).1 = some false :=
  device_execute_total_amended.2.2.2.2.1 ⟨"light", "blink", []⟩ (Light.init "거실") (by decide)

mutual

/-- Python `==` is reflexive on the modelled values. -/
theorem pyEq_refl : ∀ (v : Value), pyEq v v = true
  | .none => rfl
  | .bool b => by cases b <;> rfl
  | .int n => by simp [pyEq, Value.toNum?]
  | .float q => by simp [pyEq, Value.toNum?]
  | .str s => by simp [pyEq]
  | .list l => by simp only [pyEq]; exact pyEqList_refl l

/-- Elementwise reflexivity. -/
theorem pyEqList_refl : ∀ (l : List Value), pyEqList l l = true
  | [] => rfl
  | v :: l => by
    simp only [pyEqList, Bool.and_eq_true]
    exact ⟨pyEq_refl v, pyEqList_refl l⟩

end

/-- Values equal under Python `==` have the same truthiness. -/
theorem pyEq_truthy {x y : Value} (h : pyEq x y = true) (hx : pyTruthy x = true) :
    pyTruthy y = true := by
  cases x <;> cases y <;>
    simp_all [pyEq, pyTruthy, Value.toNum?] <;>
    try rename_i b b'
  all_goals try (cases b <;> simp_all)
  all_goals try (cases b' <;> simp_all)
  all_goals try (rename_i l m; cases l <;> cases m <;> simp_all [pyEqList])
  all_goals try (intro hz; rw [hz] at h)
  all_goals try (norm_num at h)
  all_goals try (exact hx h)
  all_goals
    (rename_i a
     have hnn : (0 : ℚ) ≤ (a : ℚ) := Nat.cast_nonneg a
     linarith)

/-- Every entry of a reachable alarm state has a truthy time (`set`
rejects falsy times, `cancel` and `list` add no entries). -/
theorem alarm_reachable_times_truthy {a : Alarm} (h : AlarmReachable a) :
    ∀ e ∈ a.alarms, pyTruthy e.time = true := by
  induction h with
  | init => intro e he; simp [Alarm.init] at he
  | @step now cmd a' h ih =>
    intro e he
    by_cases h1 : cmd.action = "set"
    · by_cases ht : pyTruthy (Params.get cmd.parameters "time")
      · simp [Alarm.execute, h1, ht] at he
        rcases he with he | he
        · exact ih e he
        · rw [he]; exact ht
      · simp [Alarm.execute, h1, ht] at he
        exact ih e he
    by_cases h2 : cmd.action = "cancel"
    · by_cases ht : pyTruthy (Params.get cmd.parameters "time")
      · by_cases hlt : ((a'.alarms.filter
            (fun e => !pyEq e.time (Params.get cmd.parameters "time"))).length <
            a'.alarms.length) <;>
          (simp [Alarm.execute, h1, h2, ht, hlt] at he
           exact ih e he.1)
      · simp [Alarm.execute, h1, h2, ht] at he
        exact ih e he
    by_cases h3 : cmd.action = "list"
    · simp [Alarm.execute, h1, h2, h3] at he
      exact ih e he
    · simp [Alarm.execute, h1, h2, h3] at he
      exact ih e he

/-- C6: on the alarm device, (a) from every reachable state, `set(t)`
then `cancel(t)` leaves no alarm with time `t` (cancel removes all
matching entries); (b) from the empty state, `set("07:00")`,
`set("08:00")`, `list` reports both entries in insertion order; and
(c) `cancel(t)` with no matching entry fails with `success=false` and
leaves the alarm list unchanged. -/
theorem alarm_round_trip_spec :
    (∀ (a : Alarm), AlarmReachable a →
      ∀ (now1 now2 dev1 dev2 : String) (t : Value),
      ((Alarm.execute now2 ⟨dev2, "cancel", [("time", t)]⟩
          (Alarm.execute now1 ⟨dev1, "set", [("time", t)]⟩ a).2).2).alarms.filter
        (fun e => pyEq e.time t) = []) ∧
    (∀ (now1 now2 now3 : String),
      resultSuccess (Alarm.execute now3 ⟨"alarm", "list", []⟩
        (Alarm.execute now2 ⟨"alarm", "set", [("time", .str "08:00")]⟩
          (Alarm.execute now1 ⟨"alarm", "set", [("time", .str "07:00")]⟩
            Alarm.init).2).2).1 = some true ∧
      ((Alarm.execute now3 ⟨"alarm", "list", []⟩
        (Alarm.execute now2 ⟨"alarm", "set", [("time", .str "08:00")]⟩
          (Alarm.execute now1 ⟨"alarm", "set", [("time", .str "07:00")]⟩
            Alarm.init).2).2).1).map (fun r => r.data) =
        .ok (.alarmsData [⟨.str "07:00", .str "", true, now1⟩,
                          ⟨.str "08:00", .str "", true, now2⟩])) ∧
    (∀ (a : Alarm) (now dev : String) (t : Value),
      a.alarms.filter (fun e => pyEq e.time t) = [] →
      resultSuccess (Alarm.execute now ⟨dev, "cancel", [("time", t)]⟩ a).1 = some false ∧
      (Alarm.execute now ⟨dev, "cancel", [("time", t)]⟩ a).2.alarms = a.alarms) := by
  have hget : ∀ t : Value, Params.get [("time", t)] "time" = t := fun t => rfl
  refine ⟨?_, ?_, ?_⟩
  · intro a ha now1 now2 dev1 dev2 t
    by_cases ht : pyTruthy t
    · -- set appends an entry with time t; cancel filters out all of them
      have hset : (Alarm.execute now1 ⟨dev1, "set", [("time", t)]⟩ a).2 =
          (⟨a.alarms ++ [⟨t, .str "", true, now1⟩]⟩ : Alarm) := by
        simp [Alarm.execute, hget, ht, Params.getD]
        rfl
      have hcan : (Alarm.execute now2 ⟨dev2, "cancel", [("time", t)]⟩
          ((⟨a.alarms ++ [(⟨t, .str "", true, now1⟩ : AlarmEntry)]⟩ : Alarm))).2.alarms =
          (a.alarms ++ [(⟨t, .str "", true, now1⟩ : AlarmEntry)]).filter
            (fun e => !pyEq e.time t) := by
        simp [Alarm.execute, hget, ht]
        split <;> rfl
      rw [hset, hcan]
      rw [List.filter_eq_nil_iff]
      intro e he
      have := (List.mem_filter.mp he).2
      simp only [Bool.not_eq_true'] at this
      simp [this]
    · -- falsy time: both set and cancel fail; no reachable entry can
      -- compare equal to a falsy time
      have hset : (Alarm.execute now1 ⟨dev1, "set", [("time", t)]⟩ a).2 = a := by
        simp [Alarm.execute, hget, ht]
      have hcan : (Alarm.execute now2 ⟨dev2, "cancel", [("time", t)]⟩ a).2 = a := by
        simp [Alarm.execute, hget, ht]
      rw [hset, hcan, List.filter_eq_nil_iff]
      intro e he hc
      exact ht (pyEq_truthy hc (alarm_reachable_times_truthy ha e he))
  · intro now1 now2 now3
    exact ⟨rfl, rfl⟩
  · intro a now dev t hfil
    by_cases ht : pyTruthy t
    · have hall : ∀ e ∈ a.alarms, pyEq e.time t = false := by
        intro e he
        by_contra hne
        have : pyEq e.time t = true := by
          cases hcc : pyEq e.time t
          · exact absurd hcc hne
          · rfl
        have : e ∈ a.alarms.filter (fun e => pyEq e.time t) :=
          List.mem_filter.mpr ⟨he, this⟩
        rw [hfil] at this
        simp at this
      have hrem : a.alarms.filter (fun e => !pyEq e.time t) = a.alarms :=
        List.filter_eq_self.mpr (fun e he => by simp [hall e he])
      have hnlt : ¬ (a.alarms.filter (fun e => !pyEq e.time t)).length < a.alarms.length := by
        rw [hrem]; exact lt_irrefl _
      constructor
      · simp [Alarm.execute, hget, ht, hnlt, resultSuccess]
      · simp [Alarm.execute, hget, ht, hnlt, hrem]
    · constructor
      · simp [Alarm.execute, hget, ht, resultSuccess]
      · simp [Alarm.execute, hget, ht]

/-- C6 witness: the round trip and the no-match cancel at concrete
inputs (initial state, time `"07:00"`). -/
theorem alarm_round_trip_spec_witness :
    (((Alarm.execute "t2" ⟨"alarm", "cancel", [("time", Value.str "07:00")]⟩
        (Alarm.execute "t1" ⟨"alarm", "set", [("time", Value.str "07:00")]⟩
          Alarm.init).2).2).alarms.filter
      (fun e => pyEq e.time (Value.str "07:00")) = []) ∧
    resultSuccess (Alarm.execute "t3" ⟨"alarm", "cancel",
      [("time", Value.str "09:00")]⟩ Alarm.init).1 = some false :=
  ⟨alarm_round_trip_spec.1 Alarm.init AlarmReachable.init "t1" "t2" "alarm" "alarm"
      (Value.str "07:00"),
   (alarm_round_trip_spec.2.2 Alarm.init "t3" "alarm" (Value.str "09:00") rfl).1⟩

/-- C7 counterexample: the Tool Catalog's enum for the `mode` parameter
of `control_thermostat` omits `"off"`, yet `set_mode` accepts `"off"`
and succeeds — so the set described by the catalog is not the set the
device accepts. -/
theorem catalog_mode_enum_counterexample :
    resultSuccess (Thermostat.execute ⟨"thermostat", "set_mode",
        [("mode", Value.str "off")]⟩ Thermostat.init).1 = some true ∧
    (catalogEnum "control_thermostat" "mode").contains "off" = false := by
  exact ⟨rfl, by decide⟩

/-- C7 amended: the catalog's mode enum is exactly
`["heating", "cooling", "auto"]`, and `set_mode` succeeds exactly on
the enum values plus `"off"` — every advertised value is accepted, but
the accepted set strictly contains the advertised one. -/
theorem catalog_mode_enum_amended :
    catalogEnum "control_thermostat" "mode" = ["heating", "cooling", "auto"] ∧
    ∀ (dev : String) (t : Thermostat) (m : String),
      (resultSuccess (Thermostat.execute ⟨dev, "set_mode",
          [("mode", Value.str m)]⟩ t).1 = some true ↔
        (m ∈ catalogEnum "control_thermostat" "mode" ∨ m = "off")) := by
  refine ⟨by decide, ?_⟩
  intro dev t m
  have hget : Params.get [("mode", Value.str m)] "mode" = Value.str m := rfl
  have henum : catalogEnum "control_thermostat" "mode" = ["heating", "cooling", "auto"] := by
    decide
  by_cases hm : m = "off" ∨ m = "heating" ∨ m = "cooling" ∨ m = "auto"
  · constructor
    · intro _
      rw [henum]
      rcases hm with h | h | h | h <;> simp [h]
    · intro _
      simp [Thermostat.execute, hget, hm, resultSuccess]
  · constructor
    · intro hs
      exact absurd hs (by simp [Thermostat.execute, hget, hm, resultSuccess])
    · intro hmem
      rw [henum] at hmem
      rcases hmem with hmem | hmem
      · simp only [List.mem_cons, List.not_mem_nil, or_false] at hmem
        rcases hmem with h | h | h
        · exact absurd (Or.inr (Or.inl h)) hm
        · exact absurd (Or.inr (Or.inr (Or.inl h))) hm
        · exact absurd (Or.inr (Or.inr (Or.inr h))) hm
      · exact absurd (Or.inl hmem) hm

/-- C2 counterexample: dispatching `control_light` with the `room`
argument absent does not produce a failure envelope — the
`controller.control_light(**arguments)` call raises `TypeError`
(missing required positional argument), and that exception crosses the
`call_tool` dispatch boundary. -/
theorem dispatch_missing_room_counterexample :
    (call_tool "control_light" [("action", Value.str "on")] "t0" IoTController.init).1 =
      .error .typeError := rfl

/-- C2 amended: an unknown tool name, and a `control_light` call whose
`room` argument names no known room, both yield a `success=false`
envelope with the controller untouched (no device invoked, no
exception); but a `control_light` call with the `room` key absent
raises a `TypeError` through the dispatch boundary instead of
returning an envelope. -/
theorem dispatch_failure_envelope_amended :
    (∀ (name : String) (args : Params) (now : String) (c : IoTController),
      name ∉ (["control_light", "control_alarm", "control_thermostat",
               "get_device_status"] : List String) →
      (call_tool name args now c).1 =
        .ok ⟨false, "Unknown tool: " ++ name, .noneData⟩ ∧
      (call_tool name args now c).2 = c) ∧
    (∀ (args : Params) (now : String) (c : IoTController)
       (room action : Value) (brightness : Option Value),
      bindControlLight args = .ok (room, action, brightness) →
      dictFindKey (c.lights.map Prod.fst) room = .ok Option.none →
      (call_tool "control_light" args now c).1 =
        .ok ⟨false, "알 수 없는 방: " ++ pyStr room, .noneData⟩ ∧
      (call_tool "control_light" args now c).2 = c) ∧
    (∀ (args : Params) (now : String) (c : IoTController),
      List.lookup "room" args = Option.none →
      (call_tool "control_light" args now c).1 = .error .typeError ∧
      (call_tool "control_light" args now c).2 = c) := by
  refine ⟨?_, ?_, ?_⟩
  · intro name args now c h
    simp only [List.mem_cons, List.not_mem_nil, or_false, not_or] at h
    obtain ⟨h1, h2, h3, h4⟩ := h
    constructor <;> simp [call_tool, h1, h2, h3, h4]
  · intro args now c room action brightness hb hroom
    constructor <;>
      simp [call_tool, hb, IoTController.control_light, hroom]
  · intro args now c hroom
    by_cases hall : args.all
        (fun kv => kv.1 == "room" || kv.1 == "action" || kv.1 == "brightness")
    · constructor <;> simp [call_tool, bindControlLight, hall, hroom]
    · constructor <;> simp [call_tool, bindControlLight, hall]

/-- C2 amended witness: an unrecognized tool name gets a failure
envelope without touching the registry. -/
theorem dispatch_failure_envelope_amended_witness :
    (call_tool "control_fan" [] "t0" IoTController.init).1 =
      .ok ⟨false, "Unknown tool: " ++ "control_fan", .noneData⟩ :=
  (dispatch_failure_envelope_amended.1 "control_fan" [] "t0" IoTController.init
    (by decide)).1

/-- Executing the stub's `control_light` call never raises, whatever
the controller state (known room: the light turns on; unknown room: a
failure envelope). -/
theorem executeTool_lightOn_ok (now : String) (c : IoTController) :
    ∃ env c', executeTool "control_light"
        [("room", Value.str "living_room"), ("action", Value.str "on")] now c =
        (Except.ok env, c') := by
  have hb : bindControlLight [("room", Value.str "living_room"), ("action", Value.str "on")] =
      .ok (Value.str "living_room", Value.str "on", Option.none) := rfl
  cases hd : dictFindKey (c.lights.map Prod.fst) (Value.str "living_room") with
  | error e => exact absurd hd (by simp [dictFindKey])
  | ok o =>
    cases o with
    | none =>
      simp [executeTool, call_tool, hb, IoTController.control_light, hd]
    | some k =>
      have hle : ∀ l : Light, Light.execute ⟨"light", "on", []⟩ l =
          (.ok ⟨true, l.room ++ " 조명을 켰습니다.", DeviceData.lightState l.room "on" 100⟩,
           (⟨l.room, "on", 100⟩ : Light)) := fun l => rfl
      simp [executeTool, call_tool, hb, IoTController.control_light, hd, mkIoTCommand, hle]

/-- One always-tool turn of the Claude loop body completes without
raising. -/
theorem execToolUses_alwaysTool (now : String) (c : IoTController) :
    ∃ out, execToolUses now (toolUses alwaysToolResponse.content) c = .ok out := by
  obtain ⟨env, c', hexec⟩ := executeTool_lightOn_ok now c
  have htu : toolUses alwaysToolResponse.content =
      [⟨"toolu_01", "control_light",
        [("room", Value.str "living_room"), ("action", Value.str "on")]⟩] := rfl
  rw [htu]
  have hact : Params.getD [("room", Value.str "living_room"), ("action", Value.str "on")]
      "action" (Value.str "unknown") = Value.str "on" := rfl
  simp [execToolUses, hexec, hact, mkIoTCommand]

/-- The Claude loop fed any number of always-tool turns always comes
back to ask the provider for yet another turn. -/
theorem runClaudeLoop_alwaysTool (k : Nat) :
    ∀ (now : String) (c : IoTController) (msgs : List MessageC) (cmds : List IoTCommand),
      runClaudeLoop alwaysToolResponse (List.replicate k alwaysToolResponse) now c msgs cmds =
        .error .stubExhausted := by
  induction k with
  | zero =>
    intro now c msgs cmds
    obtain ⟨⟨rs, cs, c2⟩, hexec⟩ := execToolUses_alwaysTool now c
    rw [runClaudeLoop]
    simp [show alwaysToolResponse.stop_reason = "tool_use" from rfl, hexec]
  | succ k ih =>
    intro now c msgs cmds
    obtain ⟨⟨rs, cs, c2⟩, hexec⟩ := execToolUses_alwaysTool now c
    rw [List.replicate_succ, runClaudeLoop]
    simp [show alwaysToolResponse.stop_reason = "tool_use" from rfl, hexec]
    exact ih now c2 _ _

/-- One always-tool turn of the OpenAI loop body completes without
raising. -/
theorem execToolCallsO_alwaysTool (now : String) (c : IoTController) :
    ∃ out, execToolCallsO now alwaysToolChoice.message.tool_calls c = .ok out := by
  obtain ⟨env, c', hexec⟩ := executeTool_lightOn_ok now c
  have htc : alwaysToolChoice.message.tool_calls =
      [⟨"call_01", "control_light",
        [("room", Value.str "living_room"), ("action", Value.str "on")]⟩] := rfl
  rw [htc]
  have hact : Params.getD [("room", Value.str "living_room"), ("action", Value.str "on")]
      "action" (Value.str "unknown") = Value.str "on" := rfl
  simp [execToolCallsO, hexec, hact, mkIoTCommand]

/-- The OpenAI loop fed any number of always-tool turns always comes
back to ask the provider for yet another turn. -/
theorem runOpenAILoop_alwaysTool (k : Nat) :
    ∀ (now : String) (c : IoTController) (msgs : List MessageO) (cmds : List IoTCommand),
      runOpenAILoop alwaysToolChoice (List.replicate k alwaysToolChoice) now c msgs cmds =
        .error .stubExhausted := by
  induction k with
  | zero =>
    intro now c msgs cmds
    obtain ⟨⟨ms, cs, c2⟩, hexec⟩ := execToolCallsO_alwaysTool now c
    rw [runOpenAILoop]
    simp [show (alwaysToolChoice.finish_reason == "tool_calls" &&
      !alwaysToolChoice.message.tool_calls.isEmpty) = true from rfl, hexec]
  | succ k ih =>
    intro now c msgs cmds
    obtain ⟨⟨ms, cs, c2⟩, hexec⟩ := execToolCallsO_alwaysTool now c
    rw [List.replicate_succ, runOpenAILoop]
    simp [show (alwaysToolChoice.finish_reason == "tool_calls" &&
      !alwaysToolChoice.message.tool_calls.isEmpty) = true from rfl, hexec]
    exact ih now c2 _ _

/-- C1: the claim fails on the code — there is no iteration bound and
no `IterationBoundExceeded` anywhere in `process_async`. Fed a stub
that returns a tool-call request on every turn, the orchestrator loop
(in both the Claude and the OpenAI embedding) never produces an
outcome: however many turns the stub can serve, the loop consumes them
all and asks for yet another one, i.e. the `while` loop runs
unboundedly instead of stopping within a configured maximum. -/
theorem unbounded_tool_loop_never_completes :
    (∀ (k : Nat) (text now : String) (context : List MessageC) (c : IoTController),
      processAsyncClaude (List.replicate k alwaysToolResponse) text context now c =
        .error .stubExhausted) ∧
    (∀ (k : Nat) (text now : String) (context : List MessageO) (c : IoTController),
      processAsyncOpenAI (List.replicate k alwaysToolChoice) text context now c =
        .error .stubExhausted) := by
  constructor
  · intro k text now context c
    cases k with
    | zero => rfl
    | succ k =>
      rw [List.replicate_succ]
      exact runClaudeLoop_alwaysTool k now c _ _
  · intro k text now context c
    cases k with
    | zero => rfl
    | succ k =>
      rw [List.replicate_succ]
      exact runOpenAILoop_alwaysTool k now c _ _

/-- A successfully constructed `IoTCommand` is exactly the recorded
command of its tool call. -/
theorem mkIoTCommand_recorded (name : String) (args : Params) (cmd : IoTCommand)
    (h : mkIoTCommand (name.replace "control_" "")
      (Params.getD args "action" (.str "unknown")) args = .ok cmd) :
    cmd = recordedCommand name args := by
  cases hv : Params.getD args "action" (.str "unknown") <;>
    rw [hv] at h <;> simp [mkIoTCommand] at h
  rw [← h]
  simp [recordedCommand, strOfAction, hv]

/-- The per-turn execution loop produces one tool result per request
carrying that request's id, in order, and records exactly the turn's
commands in order. -/
theorem execToolUses_spec (now : String) :
    ∀ (tus : List ToolUseBlock) (c : IoTController) (rs : List ToolResultBlock)
      (cs : List IoTCommand) (c' : IoTController),
      execToolUses now tus c = .ok (rs, cs, c') →
      rs.map (fun r => r.tool_use_id) = tus.map (fun tu => tu.id) ∧
      cs = tus.map (fun tu => recordedCommand tu.name tu.input) := by
  intro tus
  induction tus with
  | nil =>
    intro c rs cs c' h
    simp [execToolUses] at h
    simp [h.1, h.2.1]
  | cons tu rest ih =>
    intro c rs cs c' h
    rw [execToolUses] at h
    rcases hex : executeTool tu.name tu.input now c with ⟨r, c1⟩
    rw [hex] at h
    cases r with
    | error e => simp at h
    | ok env =>
      cases hmk : mkIoTCommand (tu.name.replace "control_" "")
          (Params.getD tu.input "action" (.str "unknown")) tu.input with
      | error e => simp [hmk] at h
      | ok cmd =>
        rw [hmk] at h
        dsimp only at h
        cases hrec : execToolUses now rest c1 with
        | error e => rw [hrec] at h; simp at h
        | ok out =>
          rcases out with ⟨rs1, cs1, c2⟩
          rw [hrec] at h
          simp only [Except.ok.injEq, Prod.mk.injEq] at h
          obtain ⟨hrs, hcs, _⟩ := h
          obtain ⟨ih1, ih2⟩ := ih c1 rs1 cs1 c2 hrec
          subst hrs hcs
          constructor
          · simp [ih1]
          · simp [ih2, mkIoTCommand_recorded tu.name tu.input cmd hmk]

/-- Characterization of a completed Claude loop run: the history grows
by, per tool turn, one assistant message and one tool-result message
whose ids match the turn's request ids in order, and the outcome
commands are the per-turn recorded commands joined in turn order. -/
theorem runClaudeLoop_spec :
    ∀ (script : List ModelResponse) (resp : ModelResponse) (now : String)
      (c : IoTController) (msgs : List MessageC) (cmds : List IoTCommand)
      (out : LLMResponse) (c' : IoTController) (msgs' : List MessageC),
      runClaudeLoop resp script now c msgs cmds = .ok (out, c', msgs') →
      ∃ tail, msgs' = msgs ++ tail ∧
        toolResultIdTurns tail = (scriptToolTurns (resp :: script)).map turnRequestIds ∧
        assistantRequestIdTurns tail = (scriptToolTurns (resp :: script)).map turnRequestIds ∧
        out.commands = cmds ++ ((scriptToolTurns (resp :: script)).map turnCommands).flatten := by
  intro script
  induction script with
  | nil =>
    intro resp now c msgs cmds out c' msgs' h
    rw [runClaudeLoop] at h
    by_cases hsr : resp.stop_reason = "tool_use"
    · rw [if_pos hsr] at h
      cases hx : execToolUses now (toolUses resp.content) c with
      | error e => rw [hx] at h; simp at h
      | ok o => rw [hx] at h; rcases o with ⟨rs, cs, c2⟩; simp at h
    · rw [if_neg hsr] at h
      simp only [Except.ok.injEq, Prod.mk.injEq] at h
      obtain ⟨hout, hc, hmsgs⟩ := h
      have hturn : scriptToolTurns [resp] = [] := by
        simp [scriptToolTurns, List.takeWhile, beq_eq_false_iff_ne.mpr hsr]
      refine ⟨[], by simp [hmsgs], ?_, ?_, ?_⟩
      · simp [hturn, toolResultIdTurns]
      · simp [hturn, assistantRequestIdTurns]
      · simp [hturn, ← hout]
  | cons next rest ih =>
    intro resp now c msgs cmds out c' msgs' h
    rw [runClaudeLoop] at h
    by_cases hsr : resp.stop_reason = "tool_use"
    · rw [if_pos hsr] at h
      cases hx : execToolUses now (toolUses resp.content) c with
      | error e => rw [hx] at h; simp at h
      | ok o =>
        rcases o with ⟨rs, cs, c2⟩
        rw [hx] at h
        dsimp only at h
        obtain ⟨tail', htail', hres', hass', hcmds'⟩ :=
          ih next now c2 (msgs ++ [.assistant resp.content] ++ [.toolResults rs])
            (cmds ++ cs) out c' msgs' h
        obtain ⟨hids, hcmds⟩ := execToolUses_spec now (toolUses resp.content) c rs cs c2 hx
        have hturn : scriptToolTurns (resp :: next :: rest) =
            resp :: scriptToolTurns (next :: rest) := by
          simp [scriptToolTurns, List.takeWhile, hsr]
        refine ⟨[MessageC.assistant resp.content, MessageC.toolResults rs] ++ tail', ?_, ?_, ?_, ?_⟩
        · rw [htail']; simp
        · simp only [toolResultIdTurns, List.filterMap_append, List.filterMap_cons,
            List.filterMap_nil] at *
          simp [hturn, turnRequestIds, ← hids, hres', toolResultIdTurns]
        · simp only [assistantRequestIdTurns, List.filterMap_append, List.filterMap_cons,
            List.filterMap_nil] at *
          simp [hturn, turnRequestIds, hass', assistantRequestIdTurns]
        · rw [hcmds', hturn]
          simp [turnCommands, ← hcmds]
    · rw [if_neg hsr] at h
      simp only [Except.ok.injEq, Prod.mk.injEq] at h
      obtain ⟨hout, hc, hmsgs⟩ := h
      have hturn : scriptToolTurns (resp :: next :: rest) = [] := by
        simp [scriptToolTurns, List.takeWhile, beq_eq_false_iff_ne.mpr hsr]
      refine ⟨[], by simp [hmsgs], ?_, ?_, ?_⟩
      · simp [hturn, toolResultIdTurns]
      · simp [hturn, assistantRequestIdTurns]
      · simp [hturn, ← hout]

/-- The per-turn OpenAI execution loop appends exactly one tool message
per call, carrying that call's id, in order, and records the turn's
commands in order. -/
theorem execToolCallsO_spec (now : String) :
    ∀ (tcs : List ToolCallO) (c : IoTController) (ms : List MessageO)
      (cs : List IoTCommand) (c' : IoTController),
      execToolCallsO now tcs c = .ok (ms, cs, c') →
      ∃ envs : List Envelope, envs.length = tcs.length ∧
        ms = List.zipWith (fun tc env => MessageO.tool tc.id env) tcs envs ∧
        cs = tcs.map (fun tc => recordedCommand tc.name tc.arguments) := by
  intro tcs
  induction tcs with
  | nil =>
    intro c ms cs c' h
    simp [execToolCallsO] at h
    exact ⟨[], rfl, by simp [h.1], by simp [h.2.1]⟩
  | cons tc rest ih =>
    intro c ms cs c' h
    rw [execToolCallsO] at h
    rcases hex : executeTool tc.name tc.arguments now c with ⟨r, c1⟩
    rw [hex] at h
    cases r with
    | error e => simp at h
    | ok env =>
      cases hmk : mkIoTCommand (tc.name.replace "control_" "")
          (Params.getD tc.arguments "action" (.str "unknown")) tc.arguments with
      | error e => simp [hmk] at h
      | ok cmd =>
        rw [hmk] at h
        dsimp only at h
        cases hrec : execToolCallsO now rest c1 with
        | error e => rw [hrec] at h; simp at h
        | ok o =>
          rcases o with ⟨ms1, cs1, c2⟩
          rw [hrec] at h
          simp only [Except.ok.injEq, Prod.mk.injEq] at h
          obtain ⟨hms, hcs, _⟩ := h
          obtain ⟨envs1, hlen, hshape, hcmds1⟩ := ih c1 ms1 cs1 c2 hrec
          subst hms hcs
          refine ⟨env :: envs1, by simp [hlen], ?_, ?_⟩
          · simp [hshape]
          · simp [hcmds1, mkIoTCommand_recorded tc.name tc.arguments cmd hmk]

/-- Scanning a run of tool messages accumulates exactly their ids. -/
theorem toolMsgIdGroupsIn_zip (acc : List String) :
    ∀ (tcs : List ToolCallO) (envs : List Envelope), envs.length = tcs.length →
      ∀ rest, toolMsgIdGroupsIn acc
          (List.zipWith (fun tc env => MessageO.tool tc.id env) tcs envs ++ rest) =
        toolMsgIdGroupsIn (acc ++ tcs.map (fun tc => tc.id)) rest := by
  intro tcs
  induction tcs generalizing acc with
  | nil => intro envs _ rest; simp
  | cons tc rest' ih =>
    intro envs hlen rest
    cases envs with
    | nil => simp at hlen
    | cons env envs1 =>
      simp only [List.zipWith_cons_cons, List.cons_append, toolMsgIdGroupsIn]
      rw [ih (acc ++ [tc.id]) envs1 (by simpa using hlen) rest]
      simp

/-- Tool messages contribute nothing to the per-assistant request-id
extraction. -/
theorem assistantRequestIdTurnsO_zip :
    ∀ (tcs : List ToolCallO) (envs : List Envelope) (rest : List MessageO),
      assistantRequestIdTurnsO
          (List.zipWith (fun tc env => MessageO.tool tc.id env) tcs envs ++ rest) =
        assistantRequestIdTurnsO rest := by
  intro tcs
  induction tcs with
  | nil => intro envs rest; simp
  | cons tc rest' ih =>
    intro envs rest
    cases envs with
    | nil => simp
    | cons env envs1 =>
      simp only [List.zipWith_cons_cons, List.cons_append]
      rw [show assistantRequestIdTurnsO (MessageO.tool tc.id env ::
          (List.zipWith (fun tc env => MessageO.tool tc.id env) rest' envs1 ++ rest)) =
        assistantRequestIdTurnsO
          (List.zipWith (fun tc env => MessageO.tool tc.id env) rest' envs1 ++ rest) by
        simp [assistantRequestIdTurnsO]]
      exact ih envs1 rest

/-- Characterization of a completed OpenAI loop run: per tool turn the
history grows by one assistant tool-call message followed by one tool
message per call with matching ids in order, and the outcome commands
are the per-turn recorded commands in turn order. -/
theorem runOpenAILoop_spec :
    ∀ (script : List ChoiceO) (choice : ChoiceO) (now : String)
      (c : IoTController) (msgs : List MessageO) (cmds : List IoTCommand)
      (out : LLMResponse) (c' : IoTController) (msgs' : List MessageO),
      runOpenAILoop choice script now c msgs cmds = .ok (out, c', msgs') →
      ∃ tail, msgs' = msgs ++ tail ∧
        toolMsgIdGroups tail = (scriptToolTurnsO (choice :: script)).map turnRequestIdsO ∧
        (∀ acc, toolMsgIdGroupsIn acc tail =
          acc :: (scriptToolTurnsO (choice :: script)).map turnRequestIdsO) ∧
        assistantRequestIdTurnsO tail = (scriptToolTurnsO (choice :: script)).map turnRequestIdsO ∧
        out.commands = cmds ++ ((scriptToolTurnsO (choice :: script)).map turnCommandsO).flatten := by
  intro script
  induction script with
  | nil =>
    intro choice now c msgs cmds out c' msgs' h
    rw [runOpenAILoop] at h
    by_cases hcond : (choice.finish_reason == "tool_calls" &&
        !choice.message.tool_calls.isEmpty) = true
    · rw [if_pos hcond] at h
      cases hx : execToolCallsO now choice.message.tool_calls c with
      | error e => rw [hx] at h; simp at h
      | ok o => rw [hx] at h; rcases o with ⟨ms, cs, c2⟩; simp at h
    · rw [if_neg hcond] at h
      simp only [Except.ok.injEq, Prod.mk.injEq] at h
      obtain ⟨hout, hc, hmsgs⟩ := h
      have hturn : scriptToolTurnsO [choice] = [] := by
        simp only [scriptToolTurnsO, List.takeWhile]
        rw [Bool.of_not_eq_true hcond]
      refine ⟨[], by simp [hmsgs], ?_, ?_, ?_, ?_⟩
      · simp [hturn, toolMsgIdGroups]
      · intro acc; simp [hturn, toolMsgIdGroupsIn]
      · simp [hturn, assistantRequestIdTurnsO]
      · simp [hturn, ← hout]
  | cons next rest ih =>
    intro choice now c msgs cmds out c' msgs' h
    rw [runOpenAILoop] at h
    by_cases hcond : (choice.finish_reason == "tool_calls" &&
        !choice.message.tool_calls.isEmpty) = true
    · rw [if_pos hcond] at h
      cases hx : execToolCallsO now choice.message.tool_calls c with
      | error e => rw [hx] at h; simp at h
      | ok o =>
        rcases o with ⟨ms, cs, c2⟩
        rw [hx] at h
        dsimp only at h
        obtain ⟨tail', htail', hgr', hin', hass', hcmds'⟩ :=
          ih next now c2
            (msgs ++ [.assistantToolCalls choice.message.content choice.message.tool_calls] ++ ms)
            (cmds ++ cs) out c' msgs' h
        obtain ⟨envs, hlen, hshape, hcs⟩ :=
          execToolCallsO_spec now choice.message.tool_calls c ms cs c2 hx
        have hturn : scriptToolTurnsO (choice :: next :: rest) =
            choice :: scriptToolTurnsO (next :: rest) := by
          simp only [scriptToolTurnsO, List.takeWhile]
          rw [hcond]
        refine ⟨[MessageO.assistantToolCalls choice.message.content choice.message.tool_calls]
          ++ ms ++ tail', ?_, ?_, ?_, ?_, ?_⟩
        · rw [htail']; simp
        · show toolMsgIdGroups (MessageO.assistantToolCalls choice.message.content
            choice.message.tool_calls :: (ms ++ tail')) = _
          rw [toolMsgIdGroups, hshape, toolMsgIdGroupsIn_zip [] choice.message.tool_calls
            envs hlen tail']
          simp only [List.nil_append]
          rw [hin' (choice.message.tool_calls.map fun tc => tc.id), hturn]
          simp [turnRequestIdsO]
        · intro acc
          show toolMsgIdGroupsIn acc (MessageO.assistantToolCalls choice.message.content
            choice.message.tool_calls :: (ms ++ tail')) = _
          rw [toolMsgIdGroupsIn, hshape, toolMsgIdGroupsIn_zip [] choice.message.tool_calls
            envs hlen tail']
          simp only [List.nil_append]
          rw [hin' (choice.message.tool_calls.map fun tc => tc.id), hturn]
          simp [turnRequestIdsO]
        · show assistantRequestIdTurnsO (MessageO.assistantToolCalls choice.message.content
            choice.message.tool_calls :: (ms ++ tail')) = _
          rw [show assistantRequestIdTurnsO (MessageO.assistantToolCalls choice.message.content
              choice.message.tool_calls :: (ms ++ tail')) =
            (choice.message.tool_calls.map fun tc => tc.id) ::
              assistantRequestIdTurnsO (ms ++ tail') by simp [assistantRequestIdTurnsO]]
          rw [hshape, assistantRequestIdTurnsO_zip, hass', hturn]
          simp [turnRequestIdsO]
        · rw [hcmds', hturn]
          simp [turnCommandsO, ← hcs]
    · rw [if_neg hcond] at h
      simp only [Except.ok.injEq, Prod.mk.injEq] at h
      obtain ⟨hout, hc, hmsgs⟩ := h
      have hturn : scriptToolTurnsO (choice :: next :: rest) = [] := by
        simp only [scriptToolTurnsO, List.takeWhile]
        rw [Bool.of_not_eq_true hcond]
      refine ⟨[], by simp [hmsgs], ?_, ?_, ?_, ?_⟩
      · simp [hturn, toolMsgIdGroups]
      · intro acc; simp [hturn, toolMsgIdGroupsIn]
      · simp [hturn, assistantRequestIdTurnsO]
      · simp [hturn, ← hout]

/-- C8: in every completed orchestrator run (both provider shapes),
each tool turn appends exactly one tool-result entry per request — in
the order the requests were received and carrying the matching request
id — and the outcome's command list is the concatenation, in turn
order, of the commands recorded for each turn in the order the model
issued them. -/
theorem tool_result_ordering :
    (∀ (script : List ModelResponse) (text : String) (context : List MessageC)
       (now : String) (c : IoTController) (out : LLMResponse)
       (c' : IoTController) (msgs' : List MessageC),
      processAsyncClaude script text context now c = .ok (out, c', msgs') →
      ∃ tail, msgs' = (context ++ [MessageC.user text]) ++ tail ∧
        toolResultIdTurns tail = (scriptToolTurns script).map turnRequestIds ∧
        assistantRequestIdTurns tail = (scriptToolTurns script).map turnRequestIds ∧
        out.commands = ((scriptToolTurns script).map turnCommands).flatten) ∧
    (∀ (script : List ChoiceO) (text : String) (context : List MessageO)
       (now : String) (c : IoTController) (out : LLMResponse)
       (c' : IoTController) (msgs' : List MessageO),
      processAsyncOpenAI script text context now c = .ok (out, c', msgs') →
      ∃ tail, msgs' = ([MessageO.system SYSTEM_PROMPT] ++ context ++ [MessageO.user text]) ++ tail ∧
        toolMsgIdGroups tail = (scriptToolTurnsO script).map turnRequestIdsO ∧
        assistantRequestIdTurnsO tail = (scriptToolTurnsO script).map turnRequestIdsO ∧
        out.commands = ((scriptToolTurnsO script).map turnCommandsO).flatten) := by
  constructor
  · intro script text context now c out c' msgs' h
    cases script with
    | nil => simp [processAsyncClaude] at h
    | cons first rest =>
      obtain ⟨tail, h1, h2, h3, h4⟩ :=
        runClaudeLoop_spec rest first now c (context ++ [MessageC.user text]) [] out c' msgs' h
      exact ⟨tail, h1, h2, h3, by simpa using h4⟩
  · intro script text context now c out c' msgs' h
    cases script with
    | nil => simp [processAsyncOpenAI] at h
    | cons first rest =>
      obtain ⟨tail, h1, h2, _, h3, h4⟩ :=
        runOpenAILoop_spec rest first now c
          ([MessageO.system SYSTEM_PROMPT] ++ context ++ [MessageO.user text]) [] out c' msgs' h
      exact ⟨tail, h1, h2, h3, by simpa using h4⟩

/-- C8 witness: a concrete two-turn run — one `control_light` tool call
followed by final text — on the initial controller, in both provider
shapes. -/
theorem tool_result_ordering_witness :
    (∃ tail,
      ([MessageC.user "hi",
        MessageC.assistant [.toolUse ⟨"tu1", "control_light",
          [("room", Value.str "living_room"), ("action", Value.str "on")]⟩],
        MessageC.toolResults [⟨"tu1", ⟨true, "거실 조명을 켰습니다.",
          .result (.lightState "거실" "on" 100)⟩⟩]] : List MessageC) =
        (([] : List MessageC) ++ [MessageC.user "hi"]) ++ tail ∧
      toolResultIdTurns tail =
        (scriptToolTurns [⟨"tool_use", [.toolUse ⟨"tu1", "control_light",
            [("room", Value.str "living_room"), ("action", Value.str "on")]⟩]⟩,
          ⟨"end_turn", [.text "done"]⟩]).map turnRequestIds ∧
      assistantRequestIdTurns tail =
        (scriptToolTurns [⟨"tool_use", [.toolUse ⟨"tu1", "control_light",
            [("room", Value.str "living_room"), ("action", Value.str "on")]⟩]⟩,
          ⟨"end_turn", [.text "done"]⟩]).map turnRequestIds ∧
      (⟨"done", [⟨"control_light".replace "control_" "", "on",
          [("room", Value.str "living_room"), ("action", Value.str "on")]⟩]⟩ :
        LLMResponse).commands =
        ((scriptToolTurns [⟨"tool_use", [.toolUse ⟨"tu1", "control_light",
            [("room", Value.str "living_room"), ("action", Value.str "on")]⟩]⟩,
          ⟨"end_turn", [.text "done"]⟩]).map turnCommands).flatten) ∧
    (∃ tail,
      ([MessageO.system SYSTEM_PROMPT, MessageO.user "hi",
        MessageO.assistantToolCalls Option.none [⟨"call1", "control_light",
          [("room", Value.str "living_room"), ("action", Value.str "on")]⟩],
        MessageO.tool "call1" ⟨true, "거실 조명을 켰습니다.",
          .result (.lightState "거실" "on" 100)⟩] : List MessageO) =
        ([MessageO.system SYSTEM_PROMPT] ++ ([] : List MessageO) ++ [MessageO.user "hi"]) ++ tail ∧
      toolMsgIdGroups tail =
        (scriptToolTurnsO [⟨"tool_calls", ⟨Option.none, [⟨"call1", "control_light",
            [("room", Value.str "living_room"), ("action", Value.str "on")]⟩]⟩⟩,
          ⟨"stop", ⟨some "done", []⟩⟩]).map turnRequestIdsO ∧
      assistantRequestIdTurnsO tail =
        (scriptToolTurnsO [⟨"tool_calls", ⟨Option.none, [⟨"call1", "control_light",
            [("room", Value.str "living_room"), ("action", Value.str "on")]⟩]⟩⟩,
          ⟨"stop", ⟨some "done", []⟩⟩]).map turnRequestIdsO ∧
      (⟨"done", [⟨"control_light".replace "control_" "", "on",
          [("room", Value.str "living_room"), ("action", Value.str "on")]⟩]⟩ :
        LLMResponse).commands =
        ((scriptToolTurnsO [⟨"tool_calls", ⟨Option.none, [⟨"call1", "control_light",
            [("room", Value.str "living_room"), ("action", Value.str "on")]⟩]⟩⟩,
          ⟨"stop", ⟨some "done", []⟩⟩]).map turnCommandsO).flatten) :=
  ⟨tool_result_ordering.1
      [⟨"tool_use", [.toolUse ⟨"tu1", "control_light",
          [("room", Value.str "living_room"), ("action", Value.str "on")]⟩]⟩,
        ⟨"end_turn", [.text "done"]⟩] "hi" [] "t0" IoTController.init
      ⟨"done", [⟨"control_light".replace "control_" "", "on",
          [("room", Value.str "living_room"), ("action", Value.str "on")]⟩]⟩
      ⟨[("living_room", ⟨"거실", "on", 100⟩), ("bedroom", ⟨"침실", "off", 0⟩),
        ("kitchen", ⟨"주방", "off", 0⟩)], ⟨[]⟩, ⟨22, 22, "auto"⟩⟩
      [.user "hi",
        .assistant [.toolUse ⟨"tu1", "control_light",
          [("room", Value.str "living_room"), ("action", Value.str "on")]⟩],
        .toolResults [⟨"tu1", ⟨true, "거실 조명을 켰습니다.",
          .result (.lightState "거실" "on" 100)⟩⟩]] rfl,
   tool_result_ordering.2
      [⟨"tool_calls", ⟨Option.none, [⟨"call1", "control_light",
          [("room", Value.str "living_room"), ("action", Value.str "on")]⟩]⟩⟩,
        ⟨"stop", ⟨some "done", []⟩⟩] "hi" [] "t0" IoTController.init
      ⟨"done", [⟨"control_light".replace "control_" "", "on",
          [("room", Value.str "living_room"), ("action", Value.str "on")]⟩]⟩
      ⟨[("living_room", ⟨"거실", "on", 100⟩), ("bedroom", ⟨"침실", "off", 0⟩),
        ("kitchen", ⟨"주방", "off", 0⟩)], ⟨[]⟩, ⟨22, 22, "auto"⟩⟩
      [.system SYSTEM_PROMPT, .user "hi",
        .assistantToolCalls Option.none [⟨"call1", "control_light",
          [("room", Value.str "living_room"), ("action", Value.str "on")]⟩],
        .tool "call1" ⟨true, "거실 조명을 켰습니다.",
          .result (.lightState "거실" "on" 100)⟩] rfl⟩

end HomeAi
